import Mathlib

set_option maxRecDepth 4000

/-!
Verification of the pg-http-proxy (single-file Rust HTTP-to-Postgres proxy).

The development shallowly embeds src/main.rs:

* serde_json values are the inductive `Json`, with numbers modelled exactly
  as serde_json stores them: a tagged union of a non-negative integer, a
  negative integer, or a 64-bit float.  A finite 64-bit float is carried
  abstractly by its shortest-decimal rendering (the ryu output that both
  Number::to_string and the JSON serializer emit), since the program never
  inspects a float numerically.
* chrono parsing (NaiveDateTime::parse_from_str and the FromStr instance of
  DateTime<Utc>) is external-crate behaviour; it is abstracted as the
  `Chrono` oracle structure, and timestamps are carried abstractly with
  their Display renderings.  The binder and all theorems are parametric in
  the oracle, so they hold for the real chrono functions in particular.
* a database cell is `DbCell`: either SQL NULL at some declared column type,
  or a typed value.  The sqlx try_get calls in row_to_value are resolved
  against the sqlx Postgres type-compatibility rules, recorded arm by arm.
* the handler execute_handler is a pure function of the request and of an
  abstract `QueryOutcome` (what the database would answer), returning the
  HTTP status, the response body, and an effect trace recording whether
  parameters were bound and which driver call was made.
-/

namespace PgProxy

/-- Shortest-decimal rendering of a finite 64-bit float, as produced by the
ryu-based formatter that serde_json uses both for Number::to_string and for
serialization.  The program never inspects a float numerically, so the
rendering is the only observable datum. -/
structure FiniteF64 where
  render : String
deriving DecidableEq

/-- A 64-bit float as observed by the program: finite (with its rendering)
or one of the non-finite values, for which serde_json Number::from_f64
returns None. -/
inductive F64 where
  | finite (v : FiniteF64)
  | nan
  | posInf
  | negInf
deriving DecidableEq

/-- serde_json::Number: a tagged union.  Parsing stores a non-negative
integer literal as posInt (u64), a negative integer literal as negInt (i64),
and anything with a fraction or exponent (or out of integer range) as a
float. -/
inductive JNum where
  | posInt (n : Nat)
  | negInt (n : Int)
  | float (v : FiniteF64)
deriving DecidableEq

/-- serde_json::Value. -/
inductive Json where
  | null
  | bool (b : Bool)
  | num (n : JNum)
  | str (s : String)
  | arr (xs : List Json)
  | obj (fields : List (String × Json))

/-- serde_json Number::is_i64: true exactly for integer-tagged values in
i64 range (posInt within i64::MAX, and every negInt); false for every
float-tagged value, whatever its numeric value. -/
def JNum.is_i64 : JNum → Bool
  | .posInt n => n ≤ 9223372036854775807
  | .negInt _ => true
  | .float _ => false

/-- serde_json Number::as_i64 on the cases guarded by is_i64 (the program
calls as_i64().unwrap() only under an is_i64() test; the float arm is never
consulted and is given a dummy value). -/
def JNum.as_i64 : JNum → Int
  | .posInt n => (n : Int)
  | .negInt n => n
  | .float _ => 0

/-- serde_json Number::to_string: itoa for the integer tags, the carried ryu
rendering for floats. -/
def JNum.to_string : JNum → String
  | .posInt n => toString n
  | .negInt n => toString n
  | .float v => v.render

/-- serde_json From<i64> for Number: negative values become negInt, others
posInt. -/
def JNum.ofInt (n : Int) : JNum :=
  if 0 ≤ n then .posInt n.toNat else .negInt n

/-- serde_json Number::from_f64 followed by unwrap_or(Number::from(0)), as
in step 6 of row_to_value: from_f64 is None exactly on non-finite input. -/
def JNum.from_f64OrZero : F64 → JNum
  | .finite v => .float v
  | _ => .posInt 0

/-- Lower-case hex digit, for the JSON string escape of control characters. -/
def hexDigit (n : Nat) : Char :=
  (String.data ("0123456789abcdef")).getD n '0'

/-- serde_json escaping of one character inside a JSON string. -/
def escapeJsonChar (c : Char) : String :=
  if c = '"' then "\\\""
  else if c = '\\' then "\\\\"
  else if c = '\x08' then "\\b"
  else if c = '\x0c' then "\\f"
  else if c = '\n' then "\\n"
  else if c = '\r' then "\\r"
  else if c = '\t' then "\\t"
  else if c.toNat < 0x20 then
    String.mk ['\\', 'u', '0', '0', hexDigit (c.toNat / 16), hexDigit (c.toNat % 16)]
  else String.singleton c

/-- A JSON string literal: quotes around the escaped characters. -/
def quoteJson (s : String) : String :=
  "\"" ++ s.data.foldl (fun acc c => acc ++ escapeJsonChar c) "" ++ "\""

mutual

/-- serde_json Value::to_string (compact serialization).  Used by the
binder fallback arm, which binds the canonical text serialization of a
Null, Array or Object parameter. -/
def Json.to_string : Json → String
  | .null => "null"
  | .bool true => "true"
  | .bool false => "false"
  | .num n => n.to_string
  | .str s => quoteJson s
  | .arr xs => "[" ++ Json.arrBody xs ++ "]"
  | .obj fs => "\x7b" ++ Json.objBody fs ++ "\x7d"

/-- Comma-separated serialization of array elements. -/
def Json.arrBody : List Json → String
  | [] => ""
  | [x] => Json.to_string x
  | x :: y :: xs => Json.to_string x ++ "," ++ Json.arrBody (y :: xs)

/-- Comma-separated serialization of object fields. -/
def Json.objBody : List (String × Json) → String
  | [] => ""
  | [(k, v)] => quoteJson k ++ ":" ++ Json.to_string v
  | (k, v) :: f :: fs => quoteJson k ++ ":" ++ Json.to_string v ++ "," ++ Json.objBody (f :: fs)

end

/-- Rust str::trim: drop leading and trailing whitespace characters.
Implemented on the character list so that it evaluates inside the kernel
(the corresponding core String function does not reduce). -/
def rust_trim (s : String) : String :=
  String.mk (((s.data.dropWhile Char.isWhitespace).reverse.dropWhile Char.isWhitespace).reverse)

/-- Rust str::starts_with for a string prefix. -/
def rust_starts_with (s p : String) : Bool :=
  p.data.isPrefixOf s.data

/-- Rust str::split on a single separator character, on character lists:
keeps empty pieces, and the split of the empty string is one empty
piece. -/
def splitChars (sep : Char) : List Char → List (List Char)
  | [] => [[]]
  | c :: rest =>
    if c = sep then [] :: splitChars sep rest
    else
      match splitChars sep rest with
      | h :: t => (c :: h) :: t
      | [] => [[c]]

/-- Rust split on a comma, back on strings. -/
def rust_split_commas (s : String) : List String :=
  (splitChars ',' s.data).map String.mk

/-- chrono NaiveDateTime, carried abstractly by its Display rendering: the
program only ever parses into it (via the oracle) and renders it. -/
structure NaiveDT where
  render : String
deriving DecidableEq

/-- chrono DateTime<Utc>: its UTC instant stripped of the zone (naive_utc)
plus its own Display rendering. -/
structure UtcDT where
  naive_utc : NaiveDT
  render : String
deriving DecidableEq

/-- The chrono parsing functions used by the program, abstracted as an
oracle: parse_from_str (input, format) for NaiveDateTime, and the FromStr
parse of DateTime<Utc> (RFC 3339 style, offset required). -/
structure Chrono where
  parse_from_str : String → String → Option NaiveDT
  parse_utc : String → Option UtcDT

/-- The four NaiveDateTime format strings tried by the binder, in source
order. -/
def fmt_space : String := "%Y-%m-%d %H:%M:%S"

/-- Second format: space separator with fractional seconds. -/
def fmt_space_frac : String := "%Y-%m-%d %H:%M:%S%.f"

/-- Third format: T separator. -/
def fmt_t : String := "%Y-%m-%dT%H:%M:%S"

/-- Fourth format: T separator with fractional seconds. -/
def fmt_t_frac : String := "%Y-%m-%dT%H:%M:%S%.f"

/-- The or_else chain of the four parse_from_str attempts, in source
order. -/
def naive_parse_chain (ch : Chrono) (s : String) : Option NaiveDT :=
  match ch.parse_from_str s fmt_space with
  | some dt => some dt
  | none =>
  match ch.parse_from_str s fmt_space_frac with
  | some dt => some dt
  | none =>
  match ch.parse_from_str s fmt_t with
  | some dt => some dt
  | none => ch.parse_from_str s fmt_t_frac

/-- The driver-level bind produced for one parameter.  The constructors
mirror the distinct q.bind call sites: a NaiveDateTime bind, an i64 bind,
a plain String bind (Postgres type TEXT), a bool bind, and an
UntypedString bind (the newtype with type oid 0, letting the server infer
the type). -/
inductive BoundParam where
  | naiveDateTime (t : NaiveDT)
  | i64 (n : Int)
  | stringText (s : String)
  | boolean (b : Bool)
  | untypedString (s : String)
deriving DecidableEq

/-- The per-parameter binding logic of execute_handler (the match inside
the params loop), one JsonValue to one BoundParam. -/
def bind_param (ch : Chrono) (p : Json) : BoundParam :=
  match p with
  | .str s =>
    match naive_parse_chain ch s with
    | some dt => .naiveDateTime dt
    | none =>
      match ch.parse_utc s with
      | some d => .naiveDateTime d.naive_utc
      | none => .untypedString s
  | .num n => if n.is_i64 then .i64 n.as_i64 else .stringText n.to_string
  | .bool b => .boolean b
  | p => .untypedString p.to_string

/-- The declared Postgres type of a column, collapsed to the classes that
the try_get calls of row_to_value can tell apart: one class per typed
getter (sqlx type compatibility: DateTime<Utc> with TIMESTAMPTZ,
NaiveDateTime with TIMESTAMP, String with the text family, i64 with INT8,
i32 with INT4, f64 with FLOAT8, bool with BOOL, Value with JSON and JSONB,
Vec<u8> with BYTEA), plus `other` for every type none of the typed getters
accepts (enumerations and the like, reached only by the raw fallbacks). -/
inductive PgType where
  | timestamptz
  | timestamp
  | text
  | int8
  | int4
  | float8
  | boolean
  | json
  | bytea
  | other
deriving DecidableEq

/-- One column cell of a result row: SQL NULL at some declared type, or a
non-null value.  For the two raw-fallback classes (bytea and other) the
cell carries its raw bytes as try_get_raw exposes them. -/
inductive DbCell where
  | null (ty : PgType)
  | timestamptz (v : UtcDT)
  | timestamp (v : NaiveDT)
  | text (s : String)
  | int8 (n : Int)
  | int4 (n : Int)
  | float8 (x : F64)
  | boolean (b : Bool)
  | json (v : Json)
  | bytea (bytes : List Nat)
  | other (bytes : List Nat)

/-- Strict UTF-8 decoding of a byte list into the list of code points, as
std::str::from_utf8 validates it: rejects stray continuation bytes,
overlong encodings, surrogates, code points above 0x10FFFF, and truncated
sequences. -/
def utf8Decode : List Nat → Option (List Nat)
  | [] => some []
  | b :: rest =>
    if b < 0x80 then
      (utf8Decode rest).map (fun cs => b :: cs)
    else if b < 0xC2 then
      none
    else if b < 0xE0 then
      match rest with
      | c1 :: rest2 =>
        if 0x80 ≤ c1 ∧ c1 < 0xC0 then
          (utf8Decode rest2).map (fun cs => ((b - 0xC0) * 64 + (c1 - 0x80)) :: cs)
        else none
      | [] => none
    else if b < 0xF0 then
      match rest with
      | c1 :: c2 :: rest2 =>
        if (0x80 ≤ c1 ∧ c1 < 0xC0) ∧ (0x80 ≤ c2 ∧ c2 < 0xC0) then
          let cp := (b - 0xE0) * 4096 + (c1 - 0x80) * 64 + (c2 - 0x80)
          if 0x800 ≤ cp ∧ ¬ (0xD800 ≤ cp ∧ cp ≤ 0xDFFF) then
            (utf8Decode rest2).map (fun cs => cp :: cs)
          else none
        else none
      | _ => none
    else if b < 0xF5 then
      match rest with
      | c1 :: c2 :: c3 :: rest2 =>
        if (0x80 ≤ c1 ∧ c1 < 0xC0) ∧ ((0x80 ≤ c2 ∧ c2 < 0xC0) ∧ (0x80 ≤ c3 ∧ c3 < 0xC0)) then
          let cp := (b - 0xF0) * 262144 + (c1 - 0x80) * 4096 + (c2 - 0x80) * 64 + (c3 - 0x80)
          if 0x10000 ≤ cp ∧ cp ≤ 0x10FFFF then
            (utf8Decode rest2).map (fun cs => cp :: cs)
          else none
        else none
      | _ => none
    else none

/-- std::str::from_utf8 as used by the raw fallback: the decoded String on
valid input, none otherwise.  The validation above admits exactly the
scalar values Char can hold, so Char.ofNat is exact here. -/
def utf8String (bs : List Nat) : Option String :=
  (utf8Decode bs).map (fun cs => String.mk (cs.map Char.ofNat))

/-- The Rust Debug rendering of a Vec<u8>, used by the byte fallback arm:
decimal bytes, comma-space separated, in square brackets. -/
def debugBytes (bs : List Nat) : String :=
  "[" ++ String.intercalate ", " (bs.map toString) ++ "]"

/-- row_to_value of src/main.rs: the ordered best-effort typed extraction
of one cell.  Each arm is one step of the source, with the sqlx try_get
type-compatibility resolved statically:

* steps 1..8 are the try_get_value macro invocations for Option of
  DateTime<Utc>, NaiveDateTime, String, i64, i32, f64, bool, Value; the
  matching cell class returns the converted value, and a NULL of a
  matching class returns JSON null (the Option decodes to None);
* a cell whose class none of the typed getters accepts falls to step 9:
  try_get_raw (always Ok), skip if the raw value is null, read the bytes,
  and return them as text when they are valid UTF-8 without an embedded
  NUL character;
* step 10, try_get of Vec<u8>, succeeds only on a non-null BYTEA cell
  (decoding NULL into Vec<u8> is an UnexpectedNull error, and every other
  class fails the compatibility check), returning the Debug rendering;
* step 11 returns Ok(Null).

The Result error type is kept from the source signature even though no arm
produces an error. -/
def row_to_value (c : DbCell) : Except String Json :=
  match c with
  | .timestamptz v => .ok (.str v.render)
  | .null .timestamptz => .ok .null
  | .timestamp v => .ok (.str v.render)
  | .null .timestamp => .ok .null
  | .text s => .ok (.str s)
  | .null .text => .ok .null
  | .int8 n => .ok (.num (JNum.ofInt n))
  | .null .int8 => .ok .null
  | .int4 n => .ok (.num (JNum.ofInt n))
  | .null .int4 => .ok .null
  | .float8 x => .ok (.num (JNum.from_f64OrZero x))
  | .null .float8 => .ok .null
  | .boolean b => .ok (.bool b)
  | .null .boolean => .ok .null
  | .json v => .ok v
  | .null .json => .ok .null
  | .null .bytea => .ok .null
  | .null .other => .ok .null
  | .other bs =>
    match utf8String bs with
    | some s => if s.data.contains '\x00' then .ok .null else .ok (.str s)
    | none => .ok .null
  | .bytea bs =>
    match utf8String bs with
    | some s => if s.data.contains '\x00' then .ok (.str (debugBytes bs)) else .ok (.str s)
    | none => .ok (.str (debugBytes bs))

/-- The per-cell conversion done in the handler loops: the Ok value, or the
sentinel string when row_to_value reports an error (the source also logs a
warning there). -/
def decodeCell (c : DbCell) : Json :=
  match row_to_value c with
  | .ok v => v
  | .error _ => .str ("<<conversion error>>")

/-- The deserialized request body ProxyRequest. -/
structure ProxyRequest where
  sql : String
  params : Option (List Json)
  method : String

/-- What the database would answer for the bound statement: either a
result-row list or an execution failure with its error text.  The three
driver entry points below are derived views of this one outcome. -/
inductive QueryOutcome where
  | rows (rs : List (List DbCell))
  | failure (msg : String)

/-- Which driver call the handler made, recorded as an effect trace. -/
inductive DbCall where
  | fetch_one
  | fetch_all
  | exec
deriving DecidableEq

/-- The response body: plain text, the Row1d shape (one flattened row), or
the Rows2d shape (a list of rows). -/
inductive RespBody where
  | text (s : String)
  | row1d (rows : List Json)
  | rows2d (rows : List (List Json))

/-- An HTTP response of execute_handler plus its effect trace: `bound` is
none when the handler returned before the binding loop, and `dbCalls`
records the driver calls issued. -/
structure HandlerResult where
  status : Nat
  body : RespBody
  bound : Option (List BoundParam)
  dbCalls : List DbCall

/-- The Display text of sqlx Error::RowNotFound, produced by fetch_one on
an empty result. -/
def rowNotFoundMsg : String :=
  "no rows returned by a query that expected to return at least one row"

/-- sqlx fetch_one: the first row, or RowNotFound on an empty result, or
the underlying failure. -/
def fetch_one : QueryOutcome → Except String (List DbCell)
  | .failure m => .error m
  | .rows [] => .error rowNotFoundMsg
  | .rows (r :: _) => .ok r

/-- sqlx fetch_all: every row, or the underlying failure. -/
def fetch_all : QueryOutcome → Except String (List (List DbCell))
  | .failure m => .error m
  | .rows rs => .ok rs

/-- sqlx execute: runs the statement without reading rows. -/
def db_execute : QueryOutcome → Except String Unit
  | .failure m => .error m
  | .rows _ => .ok ()

/-- execute_handler of src/main.rs as a pure function of the request and
the database outcome: the empty-sql guard, the parameter binding loop, and
the method dispatch with its three fetch strategies. -/
def execute_handler (ch : Chrono) (req : ProxyRequest) (outcome : QueryOutcome) :
    HandlerResult :=
  if (rust_trim req.sql).isEmpty then
    ⟨400, .text ("sql must not be empty"), none, []⟩
  else
    let binds := (req.params.getD []).map (bind_param ch)
    match req.method with
    | "get" =>
      match fetch_one outcome with
      | .ok row => ⟨200, .row1d (row.map decodeCell), some binds, [.fetch_one]⟩
      | .error e => ⟨500, .text ("DB error: " ++ e), some binds, [.fetch_one]⟩
    | "all" | "values" =>
      match fetch_all outcome with
      | .ok rs => ⟨200, .rows2d (rs.map (fun row => row.map decodeCell)), some binds, [.fetch_all]⟩
      | .error e => ⟨500, .text ("DB error: " ++ e), some binds, [.fetch_all]⟩
    | "run" | "execute" =>
      match db_execute outcome with
      | .ok _ => ⟨200, .rows2d [], some binds, [.exec]⟩
      | .error e => ⟨500, .text ("DB error: " ++ e), some binds, [.exec]⟩
    | other => ⟨400, .text ("unknown method: " ++ other), some binds, []⟩

/-- The Authorization header as the guard observes it: absent, present but
not decodable as text (to_str fails), or a decoded string. -/
inductive AuthHeader where
  | missing
  | undecodable
  | value (s : String)
deriving DecidableEq

/-- The rejection produced by the guard: ErrorUnauthorized maps to HTTP
401, ErrorBadRequest to HTTP 400. -/
inductive AuthError where
  | unauthorized (msg : String)
  | badRequest (msg : String)
deriving DecidableEq

/-- The initialization of the global token set from the AUTH_TOKENS
environment variable (absent means the empty string, with a startup
warning): split on commas, trim, drop empty entries. -/
def VALID_TOKENS (env : Option String) : List String :=
  ((rust_split_commas (env.getD "")).map rust_trim).filter (fun s => !s.isEmpty)

/-- BearerAuth::from_request: the case analysis on the Authorization
header.  On a decoded header the scheme check is starts_with of the
"Bearer " prefix, and the token is the remainder after the 7 prefix
characters. -/
def from_request (tokens : List String) (h : AuthHeader) : Except AuthError Unit :=
  match h with
  | .missing => .error (.unauthorized ("Authorization header missing"))
  | .undecodable => .error (.badRequest ("Invalid header encoding"))
  | .value s =>
    if rust_starts_with s ("Bearer ") then
      let token := s.drop 7
      if tokens.contains token then .ok ()
      else .error (.unauthorized ("Invalid token"))
    else .error (.unauthorized ("Invalid authorization scheme"))

/-- Substring test used to state that a response body does or does not
mention a given string. -/
def strContains (hay needle : String) : Bool :=
  hay.data.tails.any (fun t => needle.data.isPrefixOf t)

/-- Whether a response body is a text body mentioning the given mode name,
the formal reading of a plain-text body naming the unrecognized mode. -/
def bodyNamesMode (b : RespBody) (mode : String) : Bool :=
  match b with
  | .text s => strContains s mode
  | _ => false

/-- A Chrono oracle on which every parse attempt fails; used to instantiate
parametric theorems at concrete inputs. -/
def chronoNone : Chrono :=
  ⟨fun _ _ => none, fun _ => none⟩

/-- Claim C4: a Null database value at any typed-extraction step of the
Result Decoder decodes to JSON Null, not an extraction failure, whatever
the declared column type. -/
theorem c4_null_decodes_to_null (ty : PgType) :
    row_to_value (DbCell.null ty) = Except.ok Json.null := by
  cases ty <;> rfl

/-- Claim C6: a 64-bit floating-point cell decodes to the corresponding
JSON numeric when finite, and a non-finite value (NaN or an infinity) is
substituted by the sentinel numeric zero instead of failing the row. -/
theorem c6_float8_decode :
    (∀ v, row_to_value (DbCell.float8 (F64.finite v)) =
        Except.ok (Json.num (JNum.float v)))
    ∧ row_to_value (DbCell.float8 F64.nan) = Except.ok (Json.num (JNum.posInt 0))
    ∧ row_to_value (DbCell.float8 F64.posInf) = Except.ok (Json.num (JNum.posInt 0))
    ∧ row_to_value (DbCell.float8 F64.negInf) = Except.ok (Json.num (JNum.posInt 0)) :=
  ⟨fun _ => rfl, rfl, rfl, rfl⟩

/-- Claim C10: row_to_value is total and never returns an error, so the
per-cell conversion-error branch of the handler (which would substitute
the sentinel string) is unreachable and decodeCell always returns the Ok
value. -/
theorem c10_row_to_value_total (c : DbCell) :
    ∃ v, row_to_value c = Except.ok v ∧ decodeCell c = v := by
  have h : ∃ v, row_to_value c = Except.ok v := by
    cases c with
    | null ty => cases ty <;> exact ⟨_, rfl⟩
    | float8 x => cases x <;> exact ⟨_, rfl⟩
    | other bs =>
      simp only [row_to_value]
      cases hu : utf8String bs with
      | none => simp [hu]
      | some s =>
        by_cases hc : '\x00' ∈ s.data <;> simp [hu, hc]
    | bytea bs =>
      simp only [row_to_value]
      cases hu : utf8String bs with
      | none => simp [hu]
      | some s =>
        by_cases hc : '\x00' ∈ s.data <;> simp [hu, hc]
    | timestamptz v => exact ⟨_, rfl⟩
    | timestamp v => exact ⟨_, rfl⟩
    | text s => exact ⟨_, rfl⟩
    | int8 n => exact ⟨_, rfl⟩
    | int4 n => exact ⟨_, rfl⟩
    | boolean b => exact ⟨_, rfl⟩
    | json v => exact ⟨_, rfl⟩
  obtain ⟨v, hv⟩ := h
  exact ⟨v, hv, by simp [decodeCell, hv]⟩

/-- Claim C1: for a String parameter the binder tries the four
timestamp-without-timezone formats in source order and binds the first
success as NaiveDateTime; if all four fail it tries the timezone-aware
parse and binds the UTC instant with the zone stripped; otherwise it binds
the original string as the untyped text bind. -/
theorem c1_string_param_binding (ch : Chrono) (s : String) :
    (∀ t, ch.parse_from_str s fmt_space = some t →
        bind_param ch (Json.str s) = BoundParam.naiveDateTime t)
    ∧ (ch.parse_from_str s fmt_space = none →
      (∀ t, ch.parse_from_str s fmt_space_frac = some t →
          bind_param ch (Json.str s) = BoundParam.naiveDateTime t)
      ∧ (ch.parse_from_str s fmt_space_frac = none →
        (∀ t, ch.parse_from_str s fmt_t = some t →
            bind_param ch (Json.str s) = BoundParam.naiveDateTime t)
        ∧ (ch.parse_from_str s fmt_t = none →
          (∀ t, ch.parse_from_str s fmt_t_frac = some t →
              bind_param ch (Json.str s) = BoundParam.naiveDateTime t)
          ∧ (ch.parse_from_str s fmt_t_frac = none →
            (∀ d, ch.parse_utc s = some d →
                bind_param ch (Json.str s) = BoundParam.naiveDateTime d.naive_utc)
            ∧ (ch.parse_utc s = none →
                bind_param ch (Json.str s) = BoundParam.untypedString s))))) := by
  refine ⟨fun t ht => ?_,
    fun h1 => ⟨fun t ht => ?_,
      fun h2 => ⟨fun t ht => ?_,
        fun h3 => ⟨fun t ht => ?_,
          fun h4 => ⟨fun d hd => ?_, fun h5 => ?_⟩⟩⟩⟩⟩ <;>
    simp [bind_param, naive_parse_chain, *]

/-- Witness for C1: on an oracle where every parse fails, the string is
bound as the untyped text bind. -/
theorem c1_witness :
    bind_param chronoNone (Json.str ("hello")) = BoundParam.untypedString ("hello") :=
  (((((c1_string_param_binding chronoNone ("hello")).2 rfl).2 rfl).2 rfl).2 rfl).2 rfl

/-- Counterexample for C3 as stated: a float-tagged number is bound with a
plain String bind (Postgres type TEXT), not with the untyped (oid 0) bind
that the claim calls opaque untyped text and that the binder reserves for
its string and other-shape fallbacks. -/
theorem c3_counterexample :
    bind_param chronoNone (Json.num (JNum.float ⟨"1.5"⟩)) = BoundParam.stringText ("1.5")
    ∧ bind_param chronoNone (Json.num (JNum.float ⟨"1.5"⟩)) ≠ BoundParam.untypedString ("1.5") := by
  exact ⟨rfl, by decide⟩

/-- Claim C3 as amended: a Number parameter that serde_json reports as a
64-bit signed integer (is_i64, that is an integer-tagged value within i64
range) is bound as a 64-bit integer; any other number is bound as its
decimal text rendering with a typed TEXT bind; and a number is never bound
as anything but one of those two (in particular never as a native
floating-point bind). -/
theorem c3_number_param_binding (ch : Chrono) (n : JNum) :
    (n.is_i64 = true → bind_param ch (Json.num n) = BoundParam.i64 n.as_i64)
    ∧ (n.is_i64 = false → bind_param ch (Json.num n) = BoundParam.stringText n.to_string)
    ∧ (bind_param ch (Json.num n) = BoundParam.i64 n.as_i64 ∨
        bind_param ch (Json.num n) = BoundParam.stringText n.to_string) := by
  refine ⟨fun h => ?_, fun h => ?_, ?_⟩
  · simp [bind_param, h]
  · simp [bind_param, h]
  · by_cases h : n.is_i64 = true <;> simp [bind_param, h]

/-- Witness for C3: the integer-tagged number 5 is bound as the 64-bit
integer 5. -/
theorem c3_witness :
    bind_param chronoNone (Json.num (JNum.posInt 5)) = BoundParam.i64 5 :=
  (c3_number_param_binding chronoNone (JNum.posInt 5)).1 (by decide)

/-- Claim C2: the dispatcher maps each recognized mode to its fetch
strategy and response shape: get flattens the single fetched row into one
sequence (Row1d), all and values return one inner sequence per fetched row
(Rows2d), and run and execute issue the no-rows execute call and answer
with an empty row sequence. -/
theorem c2_dispatch (ch : Chrono) (req : ProxyRequest) (outcome : QueryOutcome)
    (hsql : (rust_trim req.sql).isEmpty = false) :
    (∀ r rs, req.method = "get" → outcome = QueryOutcome.rows (r :: rs) →
        execute_handler ch req outcome =
          ⟨200, RespBody.row1d (r.map decodeCell),
            some ((req.params.getD []).map (bind_param ch)), [DbCall.fetch_one]⟩)
    ∧ (∀ rs, (req.method = "all" ∨ req.method = "values") →
        outcome = QueryOutcome.rows rs →
        execute_handler ch req outcome =
          ⟨200, RespBody.rows2d (rs.map (fun row => row.map decodeCell)),
            some ((req.params.getD []).map (bind_param ch)), [DbCall.fetch_all]⟩)
    ∧ (∀ rs, (req.method = "run" ∨ req.method = "execute") →
        outcome = QueryOutcome.rows rs →
        execute_handler ch req outcome =
          ⟨200, RespBody.rows2d [],
            some ((req.params.getD []).map (bind_param ch)), [DbCall.exec]⟩) := by
  obtain ⟨sql, params, method⟩ := req
  refine ⟨fun r rs hm ho => ?_, fun rs hm ho => ?_, fun rs hm ho => ?_⟩
  · cases hm; cases ho
    simp [execute_handler, hsql, fetch_one]
  · rcases hm with hm | hm <;> (cases hm; cases ho; simp [execute_handler, hsql, fetch_all])
  · rcases hm with hm | hm <;> (cases hm; cases ho; simp [execute_handler, hsql, db_execute])

/-- Witness for C2: a run request over a successful outcome answers 200
with an empty row sequence after an execute call. -/
theorem c2_witness :
    execute_handler chronoNone ⟨"DELETE FROM t", none, "run"⟩ (QueryOutcome.rows []) =
      ⟨200, RespBody.rows2d [], some [], [DbCall.exec]⟩ :=
  (c2_dispatch chronoNone ⟨"DELETE FROM t", none, "run"⟩ (QueryOutcome.rows [])
    (by decide)).2.2 [] (Or.inl rfl) rfl

/-- Claim C5: a get request whose query matches zero rows is a
query-execution failure answered as HTTP 500 with the underlying error
text (the sqlx RowNotFound message), not a success with an empty row
sequence. -/
theorem c5_get_zero_rows (ch : Chrono) (req : ProxyRequest)
    (hm : req.method = "get") (hsql : (rust_trim req.sql).isEmpty = false) :
    execute_handler ch req (QueryOutcome.rows []) =
      ⟨500, RespBody.text ("DB error: " ++ rowNotFoundMsg),
        some ((req.params.getD []).map (bind_param ch)), [DbCall.fetch_one]⟩ := by
  obtain ⟨sql, params, method⟩ := req
  cases hm
  simp [execute_handler, hsql, fetch_one]

/-- Witness for C5: a concrete get request over an empty result. -/
theorem c5_witness :
    execute_handler chronoNone ⟨"SELECT 1 WHERE false", none, "get"⟩ (QueryOutcome.rows []) =
      ⟨500, RespBody.text ("DB error: " ++ rowNotFoundMsg), some [], [DbCall.fetch_one]⟩ :=
  c5_get_zero_rows chronoNone ⟨"SELECT 1 WHERE false", none, "get"⟩ rfl (by decide)

/-- Any string is found by strContains at the end of an append: used to
state that the unknown-method body names the mode. -/
theorem strContains_append (p m : String) : strContains (p ++ m) m = true := by
  unfold strContains
  rw [List.any_eq_true]
  refine ⟨m.data, ?_, ?_⟩
  · rw [List.mem_tails]
    exact ⟨p.data, by cases p; cases m; rfl⟩
  · simp [List.isPrefixOf_iff_prefix]

/-- Counterexample for C7 as stated: a request with a blank sql and an
unrecognized method is answered by the empty-sql guard, so the 400 body
does not name the mode. -/
theorem c7_counterexample :
    execute_handler chronoNone ⟨"", none, "frobnicate"⟩ (QueryOutcome.rows []) =
      ⟨400, RespBody.text ("sql must not be empty"), none, []⟩
    ∧ bodyNamesMode (RespBody.text ("sql must not be empty")) ("frobnicate") = false := by
  exact ⟨rfl, by decide⟩

/-- Claim C7 as amended: a request whose sql is non-blank and whose method
is none of get, all, values, run, execute is rejected with HTTP 400, the
plain-text body names the unrecognized mode, and no database call is
issued. -/
theorem c7_unknown_method (ch : Chrono) (req : ProxyRequest) (outcome : QueryOutcome)
    (hsql : (rust_trim req.sql).isEmpty = false)
    (h1 : req.method ≠ "get") (h2 : req.method ≠ "all") (h3 : req.method ≠ "values")
    (h4 : req.method ≠ "run") (h5 : req.method ≠ "execute") :
    execute_handler ch req outcome =
      ⟨400, RespBody.text ("unknown method: " ++ req.method),
        some ((req.params.getD []).map (bind_param ch)), []⟩
    ∧ bodyNamesMode (RespBody.text ("unknown method: " ++ req.method)) req.method = true := by
  obtain ⟨sql, params, method⟩ := req
  constructor
  · simp only [execute_handler, hsql]
    split <;> simp_all
  · simp [bodyNamesMode, strContains_append]

/-- Witness for C7: a concrete non-blank request with method frobnicate. -/
theorem c7_witness :
    execute_handler chronoNone ⟨"SELECT 1", none, "frobnicate"⟩ (QueryOutcome.rows []) =
      ⟨400, RespBody.text ("unknown method: " ++ "frobnicate"), some [], []⟩
    ∧ bodyNamesMode (RespBody.text ("unknown method: " ++ "frobnicate")) ("frobnicate") = true :=
  c7_unknown_method chronoNone ⟨"SELECT 1", none, "frobnicate"⟩ (QueryOutcome.rows [])
    (by decide) (by decide) (by decide) (by decide) (by decide) (by decide)

/-- Claim C8: a request whose sql is empty or blank after trimming is
rejected with HTTP 400 and a plain-text body, before any parameter binding
(the bound trace stays none) and before any database call, whatever the
method, parameters and database outcome. -/
theorem c8_blank_sql (ch : Chrono) (req : ProxyRequest) (outcome : QueryOutcome)
    (h : (rust_trim req.sql).isEmpty = true) :
    execute_handler ch req outcome =
      ⟨400, RespBody.text ("sql must not be empty"), none, []⟩ := by
  simp [execute_handler, h]

/-- Witness for C8: a whitespace-only sql with a recognized method. -/
theorem c8_witness :
    execute_handler chronoNone ⟨"   ", none, "all"⟩ (QueryOutcome.rows []) =
      ⟨400, RespBody.text ("sql must not be empty"), none, []⟩ :=
  c8_blank_sql chronoNone ⟨"   ", none, "all"⟩ (QueryOutcome.rows []) (by decide)

/-- Claim C9: the case analysis of the credential gate: missing header is
401, undecodable header bytes are 400, a non-Bearer header is 401, a
Bearer token outside the token set is 401, a Bearer token in the set is
admitted; and with the empty token set (as produced when the configuring
variable is absent) every request is rejected. -/
theorem c9_credential_gate (tokens : List String) :
    from_request tokens AuthHeader.missing =
      Except.error (AuthError.unauthorized ("Authorization header missing"))
    ∧ from_request tokens AuthHeader.undecodable =
      Except.error (AuthError.badRequest ("Invalid header encoding"))
    ∧ (∀ s, rust_starts_with s ("Bearer ") = false →
        from_request tokens (AuthHeader.value s) =
          Except.error (AuthError.unauthorized ("Invalid authorization scheme")))
    ∧ (∀ s, rust_starts_with s ("Bearer ") = true → tokens.contains (s.drop 7) = false →
        from_request tokens (AuthHeader.value s) =
          Except.error (AuthError.unauthorized ("Invalid token")))
    ∧ (∀ s, rust_starts_with s ("Bearer ") = true → tokens.contains (s.drop 7) = true →
        from_request tokens (AuthHeader.value s) = Except.ok ())
    ∧ (∀ h, from_request [] h ≠ Except.ok ())
    ∧ VALID_TOKENS none = [] := by
  refine ⟨rfl, rfl, fun s hs => ?_, fun s hs ht => ?_, fun s hs ht => ?_, fun h => ?_, rfl⟩
  · simp [from_request, hs]
  · have ht2 : s.drop 7 ∉ tokens := by simpa using ht
    simp [from_request, hs, ht2]
  · have ht2 : s.drop 7 ∈ tokens := by simpa using ht
    simp [from_request, hs, ht2]
  · cases h with
    | missing => simp [from_request]
    | undecodable => simp [from_request]
    | value s =>
      by_cases hs : rust_starts_with s ("Bearer ") <;>
        simp [from_request, hs, List.contains]

/-- Witness for C9: with the token set holding abc, the header Bearer abc
is admitted and the header Bearer xyz is rejected as an invalid token. -/
theorem c9_witness :
    from_request ["abc"] (AuthHeader.value ("Bearer abc")) = Except.ok ()
    ∧ from_request ["abc"] (AuthHeader.value ("Bearer xyz")) =
      Except.error (AuthError.unauthorized ("Invalid token")) :=
  ⟨(c9_credential_gate ["abc"]).2.2.2.2.1 ("Bearer abc") (by decide) (by decide),
    (c9_credential_gate ["abc"]).2.2.2.1 ("Bearer xyz") (by decide) (by decide)⟩

end PgProxy

